import Mathlib

/-!
Verification of the appimage-monitor repository: a shallow embedding of the
icon extraction/scoring/caching pipeline and the desktop-entry generation
logic of `generate_once.py` and `monitor.py`, with theorems settling the
specification's claims about them.
-/

set_option autoImplicit false

/-! ## Python string and path helpers

`pathlib.Path.suffix` returns `name[i:]` where `i = name.rfind('.')`,
provided `0 < i < len(name) - 1`, and `""` otherwise; `Path.stem` is the
final path component with that suffix removed.  All helpers are written
over `List Char` so that concrete instances evaluate in the kernel.
-/

/-- Python `str.lower()` (ASCII case folding). -/
def pyLower (s : String) : String := String.mk (s.toList.map Char.toLower)

/-- Python `str.endswith(suffix)`. -/
def strEndsWith (s suffix : String) : Bool :=
  suffix.toList.reverse.isPrefixOf s.toList.reverse

/-- Tail of a character list starting at its last dot, if any. -/
def pySuffixAux : List Char → Option (List Char)
  | [] => none
  | ch :: rest =>
    match pySuffixAux rest with
    | some s => some s
    | none => if ch = '.' then some (ch :: rest) else none

/-- The suffix, per the Python rule above, of a single path component. -/
def pySuffix (name : String) : String :=
  let cs := name.toList
  match pySuffixAux cs with
  | some t => if 1 < t.length ∧ t.length < cs.length then String.mk t else ""
  | none => ""

/-- The stem (name minus suffix) of a single path component. -/
def pyStem (name : String) : String :=
  let cs := name.toList
  match pySuffixAux cs with
  | some t =>
    if 1 < t.length ∧ t.length < cs.length then
      String.mk (cs.take (cs.length - t.length))
    else name
  | none => name

/-- Final path component (what `pathlib` calls `name`): the characters
after the last slash. -/
def baseName (p : String) : String :=
  String.mk ((p.toList.reverse.takeWhile fun c => c ≠ '/').reverse)

/-- Contiguous-sublist test on character lists. -/
def occursAux (needle : List Char) : List Char → Bool
  | [] => needle.isEmpty
  | c :: rest => needle.isPrefixOf (c :: rest) || occursAux needle rest

/-- Python substring test `needle in hay`. -/
def occursIn (needle hay : String) : Bool := occursAux needle.toList hay.toList

/-! ## Data model

An icon candidate as enumerated by the `os.walk` pass of
`extract_and_cache_icons`: its (base) file name, byte size, optional PNG
pixel dimensions (absent when PIL is unavailable or decoding fails), and
its file content (the bytes that `shutil.copy2` would copy).
-/

structure IconCandidate where
  name : String
  size : Nat
  dims : Option (Nat × Nat)
  data : String
deriving DecidableEq

/-- Outcome of the `--appimage-extract` subprocess step together with the
enumeration of candidate icon files: the launch may raise (nonexistent
executable), exit non-zero, hit the 60-second timeout, or succeed with a
list of enumerated candidates. -/
inductive ExtractResult where
  | launchError
  | nonzeroExit
  | timeout
  | ok (files : List IconCandidate)
deriving DecidableEq

/-- The `os.walk` filter of the source:
`file.lower().endswith(('.png', '.svg', '.xpm', '.ico'))`. -/
def isIconFile (name : String) : Bool :=
  strEndsWith (pyLower name) ".png" || strEndsWith (pyLower name) ".svg" ||
  strEndsWith (pyLower name) ".xpm" || strEndsWith (pyLower name) ".ico"

/-! ## Filesystem model

Written files are modelled as a map from absolute path to
(content, executable bit).  `open(path, 'w')` fully overwrites, creating a
non-executable file; `os.chmod(path, 0o755)` sets the executable bit.
-/

abbrev FS : Type := String → Option (String × Bool)

/-- Whole-file overwrite, as performed by `open(path, 'w')`/`shutil.copy2`. -/
def writeFile (fs : FS) (p : String) (content : String) : FS :=
  fun q => if p = q then some (content, false) else fs q

/-- Model of `os.chmod(path, 0o755)`. -/
def chmodExec (fs : FS) (p : String) : FS :=
  fun q =>
    if p = q then
      match fs p with
      | some (c, _) => some (c, true)
      | none => none
    else fs q

/-- Apply a sequence of whole-file writes in order. -/
def applyWrites (ws : List (String × String)) (fs : FS) : FS :=
  ws.foldl (fun acc w => writeFile acc w.1 w.2) fs

/-- The last write to a given path in a write sequence, if any. -/
def lastWrite : List (String × String) → String → Option String
  | [], _ => none
  | w :: ws, q =>
    match lastWrite ws q with
    | some c => some c
    | none => if w.1 = q then some w.2 else none

namespace GenerateOnce

/-- Function `detect_category` of `generate_once.py` (lines 23-56). -/
def detect_category (app_name : String) : String :=
  if (["chrome", "firefox", "edge", "brave", "opera", "safari", "chromium",
      "librewolf", "libre"].any fun k => occursIn k (pyLower app_name)) then
    "Network;WebBrowser;"
  else if (["code", "studio", "ide", "editor", "vim", "emacs",
      "sublime"].any fun k => occursIn k (pyLower app_name)) then
    "Development;IDE;"
  else if (["player", "vlc", "mpv", "kodi", "spotify",
      "audacity"].any fun k => occursIn k (pyLower app_name)) then
    "AudioVideo;Audio;Video;"
  else if (["gimp", "inkscape", "blender", "krita",
      "darktable"].any fun k => occursIn k (pyLower app_name)) then
    "Graphics;2DGraphics;3DGraphics;"
  else if (["libreoffice", "openoffice", "word", "excel",
      "powerpoint"].any fun k => occursIn k (pyLower app_name)) then
    "Office;"
  else if (["game", "steam", "minecraft",
      "roblox"].any fun k => occursIn k (pyLower app_name)) then
    "Game;"
  else if (["terminal", "system", "admin", "disk",
      "backup"].any fun k => occursIn k (pyLower app_name)) then
    "System;"
  else "Utility;"

/-- The scoring pass of `extract_and_cache_icons` (lines 103-133): format
base by file suffix, capped size bonus, capped pixel-dimension bonus for
PNGs whose dimensions decode. -/
def scoreIcon (c : IconCandidate) : Nat :=
  let base :=
    if pyLower (pySuffix c.name) = ".svg" then 1000
    else if pyLower (pySuffix c.name) = ".png" then 500
    else if pyLower (pySuffix c.name) = ".xpm" then 100
    else if pyLower (pySuffix c.name) = ".ico" then 50
    else 0
  let sizeBonus := min (c.size / 1024) 100
  let dimBonus :=
    if pyLower (pySuffix c.name) = ".png" then
      match c.dims with
      | some (w, h) => min (w * h / 1000) 200
      | none => 0
    else 0
  base + sizeBonus + dimBonus

/-- The selection loop of `extract_and_cache_icons` (lines 100-137):
`best_icon = None; best_score = -1; for c: if score > best_score: update`. -/
def selectLoop : List IconCandidate → Option IconCandidate → Int →
    Option IconCandidate × Int
  | [], best, bestScore => (best, bestScore)
  | c :: rest, best, bestScore =>
    if (scoreIcon c : Int) > bestScore then selectLoop rest (some c) (scoreIcon c)
    else selectLoop rest best bestScore

/-- The selected best icon after the scoring loop. -/
def selectBest (l : List IconCandidate) : Option IconCandidate :=
  (selectLoop l none (-1)).1

/-- The bitmap size-bucket cascade of lines 159-168. -/
def sizeDir (file_size : Nat) : String :=
  if file_size < 5000 then "16x16"
  else if file_size < 15000 then "32x32"
  else if file_size < 50000 then "48x48"
  else if file_size < 100000 then "64x64"
  else "128x128"

/-- Cache destination for one candidate (lines 146-175): SVGs under
`scalable/apps`, other formats under the byte-size bucket, both keyed by
the extension-stripped stem. -/
def cacheDest (icon_cache_dir : String) (c : IconCandidate) : String :=
  if pyLower (pySuffix c.name) = ".svg" then
    icon_cache_dir ++ "/scalable/apps/" ++ pyStem c.name
  else
    icon_cache_dir ++ "/" ++ sizeDir c.size ++ "/apps/" ++ pyStem c.name

/-- Return value of `extract_and_cache_icons` (lines 58-187): `None` on
launch error, non-zero exit, timeout, or when no candidate was enumerated;
otherwise the stem of the best-scoring candidate. -/
def extract_and_cache_icons : ExtractResult → Option String
  | .launchError => none
  | .nonzeroExit => none
  | .timeout => none
  | .ok files =>
    if files.isEmpty then none
    else
      match selectBest files with
      | none => none
      | some best => some (pyStem best.name)

/-- The cache-copy side effect of `extract_and_cache_icons` (lines
145-177): one `shutil.copy2` per enumerated candidate, in order. -/
def extractWrites (icon_cache_dir : String) : ExtractResult → List (String × String)
  | .ok files =>
    if files.isEmpty then []
    else
      match selectBest files with
      | none => []
      | some _ => files.map fun c => (cacheDest icon_cache_dir c, c.data)
  | _ => []

/-- The `Icon=` field value: the extracted icon name when truthy, else the
fallback (line 207). -/
def iconField : Option String → String
  | some n => if n = "" then "application-x-executable" else n
  | none => "application-x-executable"

/-- The f-string desktop-entry template of lines 202-210. -/
def desktopContent (appimage_path app_name : String) (icon_name : Option String)
    (category : String) : String :=
  "[Desktop Entry]" ++ "\n" ++
  "Type=Application" ++ "\n" ++
  "Name=" ++ app_name ++ "\n" ++
  "Comment=AppImage Application" ++ "\n" ++
  "Exec=" ++ appimage_path ++ " %u" ++ "\n" ++
  "Icon=" ++ iconField icon_name ++ "\n" ++
  "Terminal=false" ++ "\n" ++
  "Categories=" ++ category ++ "\n"

end GenerateOnce

/-- One generation request: the bundle path, the outcome of its extraction
step, and whether the entry write or the `chmod` raises (`OSError` etc.).
The menu-database refresh outcome is recorded for completeness: all three
of its outcomes are swallowed by the inner `try`/`except` of the source. -/
inductive RefreshOutcome where
  | ok
  | calledProcessError
  | fileNotFound
deriving DecidableEq

structure BundleJob where
  appimage_path : String
  extract : ExtractResult
  writeRaises : Bool
  chmodRaises : Bool
  refresh : RefreshOutcome

namespace GenerateOnce

/-- The body of `generate_desktop_file` (lines 191-227), i.e. everything
inside the outer `try`: returns the filesystem reached and the exception
propagating out of the body, if any.  The extraction step never raises
(its own `try`/`except` returns `None` instead); the refresh step's
failures are caught by its inner `try`/`except`. -/
def generateInner (icon_cache_dir desktop_dir : String) (job : BundleJob)
    (fs : FS) : FS × Option String :=
  let app_name := pyStem (baseName job.appimage_path)
  let desktop_file := desktop_dir ++ "/" ++ app_name ++ ".desktop"
  let fs1 := applyWrites (extractWrites icon_cache_dir job.extract) fs
  let icon_name := extract_and_cache_icons job.extract
  let category := detect_category app_name
  let content := desktopContent job.appimage_path app_name icon_name category
  if job.writeRaises then (fs1, some "entry write failed")
  else
    let fs2 := writeFile fs1 desktop_file content
    if job.chmodRaises then (fs2, some "chmod failed")
    else (chmodExec fs2 desktop_file, none)

/-- Function `generate_desktop_file` (lines 189-229): the whole body runs under
`try`/`except Exception`, so no exception ever escapes to the caller. -/
def generate_desktop_file (icon_cache_dir desktop_dir : String)
    (job : BundleJob) (fs : FS) : FS × Option String :=
  ((generateInner icon_cache_dir desktop_dir job fs).1, none)

/-- The batch loop of `main` (lines 252-255). -/
def processAll (icon_cache_dir desktop_dir : String) (jobs : List BundleJob)
    (fs : FS) : FS :=
  jobs.foldl (fun acc j => (generate_desktop_file icon_cache_dir desktop_dir j acc).1) fs

end GenerateOnce

namespace Monitor

/-- Method `AppImageHandler.detect_category` of `monitor.py` (lines 46-79). -/
def detect_category (app_name : String) : String :=
  if (["chrome", "firefox", "edge", "brave", "opera", "safari", "chromium",
      "librewolf", "libre"].any fun k => occursIn k (pyLower app_name)) then
    "Network;WebBrowser;"
  else if (["code", "studio", "ide", "editor", "vim", "emacs",
      "sublime"].any fun k => occursIn k (pyLower app_name)) then
    "Development;IDE;"
  else if (["player", "vlc", "mpv", "kodi", "spotify",
      "audacity"].any fun k => occursIn k (pyLower app_name)) then
    "AudioVideo;Audio;Video;"
  else if (["gimp", "inkscape", "blender", "krita",
      "darktable"].any fun k => occursIn k (pyLower app_name)) then
    "Graphics;2DGraphics;3DGraphics;"
  else if (["libreoffice", "openoffice", "word", "excel",
      "powerpoint"].any fun k => occursIn k (pyLower app_name)) then
    "Office;"
  else if (["game", "steam", "minecraft",
      "roblox"].any fun k => occursIn k (pyLower app_name)) then
    "Game;"
  else if (["terminal", "system", "admin", "disk",
      "backup"].any fun k => occursIn k (pyLower app_name)) then
    "System;"
  else "Utility;"

/-- The scoring pass of `AppImageHandler.extract_and_cache_icons`
(`monitor.py` lines 126-156). -/
def scoreIcon (c : IconCandidate) : Nat :=
  let base :=
    if pyLower (pySuffix c.name) = ".svg" then 1000
    else if pyLower (pySuffix c.name) = ".png" then 500
    else if pyLower (pySuffix c.name) = ".xpm" then 100
    else if pyLower (pySuffix c.name) = ".ico" then 50
    else 0
  let sizeBonus := min (c.size / 1024) 100
  let dimBonus :=
    if pyLower (pySuffix c.name) = ".png" then
      match c.dims with
      | some (w, h) => min (w * h / 1000) 200
      | none => 0
    else 0
  base + sizeBonus + dimBonus

/-- The selection loop of `monitor.py` lines 122-160. -/
def selectLoop : List IconCandidate → Option IconCandidate → Int →
    Option IconCandidate × Int
  | [], best, bestScore => (best, bestScore)
  | c :: rest, best, bestScore =>
    if (scoreIcon c : Int) > bestScore then selectLoop rest (some c) (scoreIcon c)
    else selectLoop rest best bestScore

def selectBest (l : List IconCandidate) : Option IconCandidate :=
  (selectLoop l none (-1)).1

/-- The bitmap size-bucket cascade of `monitor.py` lines 182-191. -/
def sizeDir (file_size : Nat) : String :=
  if file_size < 5000 then "16x16"
  else if file_size < 15000 then "32x32"
  else if file_size < 50000 then "48x48"
  else if file_size < 100000 then "64x64"
  else "128x128"

/-- Cache destination per candidate, `monitor.py` lines 169-198. -/
def cacheDest (icon_cache_dir : String) (c : IconCandidate) : String :=
  if pyLower (pySuffix c.name) = ".svg" then
    icon_cache_dir ++ "/scalable/apps/" ++ pyStem c.name
  else
    icon_cache_dir ++ "/" ++ sizeDir c.size ++ "/apps/" ++ pyStem c.name

/-- Return value of `AppImageHandler.extract_and_cache_icons`
(`monitor.py` lines 81-210). -/
def extract_and_cache_icons : ExtractResult → Option String
  | .launchError => none
  | .nonzeroExit => none
  | .timeout => none
  | .ok files =>
    if files.isEmpty then none
    else
      match selectBest files with
      | none => none
      | some best => some (pyStem best.name)

/-- The cache-copy side effect, `monitor.py` lines 168-200. -/
def extractWrites (icon_cache_dir : String) : ExtractResult → List (String × String)
  | .ok files =>
    if files.isEmpty then []
    else
      match selectBest files with
      | none => []
      | some _ => files.map fun c => (cacheDest icon_cache_dir c, c.data)
  | _ => []

def iconField : Option String → String
  | some n => if n = "" then "application-x-executable" else n
  | none => "application-x-executable"

/-- The f-string desktop-entry template of `monitor.py` lines 225-233. -/
def desktopContent (appimage_path app_name : String) (icon_name : Option String)
    (category : String) : String :=
  "[Desktop Entry]" ++ "\n" ++
  "Type=Application" ++ "\n" ++
  "Name=" ++ app_name ++ "\n" ++
  "Comment=AppImage Application" ++ "\n" ++
  "Exec=" ++ appimage_path ++ " %u" ++ "\n" ++
  "Icon=" ++ iconField icon_name ++ "\n" ++
  "Terminal=false" ++ "\n" ++
  "Categories=" ++ category ++ "\n"

/-- The body of `AppImageHandler.generate_desktop_file` (`monitor.py`
lines 214-249) inside its outer `try`. -/
def generateInner (icon_cache_dir desktop_dir : String) (job : BundleJob)
    (fs : FS) : FS × Option String :=
  let app_name := pyStem (baseName job.appimage_path)
  let desktop_file := desktop_dir ++ "/" ++ app_name ++ ".desktop"
  let fs1 := applyWrites (extractWrites icon_cache_dir job.extract) fs
  let icon_name := extract_and_cache_icons job.extract
  let category := detect_category app_name
  let content := desktopContent job.appimage_path app_name icon_name category
  if job.writeRaises then (fs1, some "entry write failed")
  else
    let fs2 := writeFile fs1 desktop_file content
    if job.chmodRaises then (fs2, some "chmod failed")
    else (chmodExec fs2 desktop_file, none)

/-- Method `AppImageHandler.generate_desktop_file` (`monitor.py` lines 212-252). -/
def generate_desktop_file (icon_cache_dir desktop_dir : String)
    (job : BundleJob) (fs : FS) : FS × Option String :=
  ((generateInner icon_cache_dir desktop_dir job fs).1, none)

end Monitor

/-! ## Spec-side definitions

These follow the wording of the specification (sections 4.1, 4.2, 8) and
are compared against the definitions embedded from the source.
-/

/-- Keyword groups and category strings, exactly the table of spec
section 4.1, in its order. -/
def categoryTable : List (List String × String) :=
  [(["chrome", "firefox", "edge", "brave", "opera", "safari", "chromium",
     "librewolf", "libre"], "Network;WebBrowser;"),
   (["code", "studio", "ide", "editor", "vim", "emacs", "sublime"],
     "Development;IDE;"),
   (["player", "vlc", "mpv", "kodi", "spotify", "audacity"],
     "AudioVideo;Audio;Video;"),
   (["gimp", "inkscape", "blender", "krita", "darktable"],
     "Graphics;2DGraphics;3DGraphics;"),
   (["libreoffice", "openoffice", "word", "excel", "powerpoint"], "Office;"),
   (["game", "steam", "minecraft", "roblox"], "Game;"),
   (["terminal", "system", "admin", "disk", "backup"], "System;")]

/-- A keyword group matches when some keyword occurs as a substring of the
lowered name. -/
def groupMatches (s : String) (kws : List String) : Bool :=
  kws.any fun k => occursIn k s

/-- The spec's classification algorithm: lower-case the name, return the
category of the first matching group of the table, default `Utility;`. -/
def specClassify (app_name : String) : String :=
  match categoryTable.find? (fun g => groupMatches (pyLower app_name) g.1) with
  | some g => g.2
  | none => "Utility;"

/-- Every keyword of every group that occurs in the lowered name, paired
with its group's category, in table order. -/
def matchedKeywords (app_name : String) : List (String × String) :=
  categoryTable.flatMap fun g =>
    (g.1.filter fun k => occursIn k (pyLower app_name)).map fun k => (k, g.2)

/-- Icon formats recognized by the pipeline. -/
inductive IconFormat where
  | svg
  | png
  | xpm
  | ico
deriving DecidableEq

/-- Format of a candidate, derived from its lower-cased file suffix. -/
def iconFormat (name : String) : Option IconFormat :=
  if pyLower (pySuffix name) = ".svg" then some .svg
  else if pyLower (pySuffix name) = ".png" then some .png
  else if pyLower (pySuffix name) = ".xpm" then some .xpm
  else if pyLower (pySuffix name) = ".ico" then some .ico
  else none

/-- Base score by format per spec section 4.2 (svg=1000, png=500, xpm=100,
ico=50); a candidate with no recognized format contributes no base. -/
def formatBase : Option IconFormat → Nat
  | some .svg => 1000
  | some .png => 500
  | some .xpm => 100
  | some .ico => 50
  | none => 0

/-- The spec's scoring formula: format base, plus
`min(fileSizeBytes / 1024, 100)`, plus, for PNG only,
`min(pixelWidth*pixelHeight / 1000, 200)` when dimensions are obtainable
and zero otherwise. -/
def specScore (fmt : Option IconFormat) (size : Nat) (dims : Option (Nat × Nat)) : Nat :=
  formatBase fmt + min (size / 1024) 100 +
    (if fmt = some .png then
      match dims with
      | some (w, h) => min (w * h / 1000) 200
      | none => 0
    else 0)

/-! ## Helper lemmas -/

namespace GenerateOnce

theorem detect_category_eq_spec (n : String) : detect_category n = specClassify n := by
  unfold detect_category specClassify categoryTable groupMatches
  by_cases h1 : (["chrome", "firefox", "edge", "brave", "opera", "safari", "chromium",
      "librewolf", "libre"].any fun k => occursIn k (pyLower n)) = true
  · simp [List.find?, h1]
  by_cases h2 : (["code", "studio", "ide", "editor", "vim", "emacs",
      "sublime"].any fun k => occursIn k (pyLower n)) = true
  · simp [List.find?, h1, h2]
  by_cases h3 : (["player", "vlc", "mpv", "kodi", "spotify",
      "audacity"].any fun k => occursIn k (pyLower n)) = true
  · simp [List.find?, h1, h2, h3]
  by_cases h4 : (["gimp", "inkscape", "blender", "krita",
      "darktable"].any fun k => occursIn k (pyLower n)) = true
  · simp [List.find?, h1, h2, h3, h4]
  by_cases h5 : (["libreoffice", "openoffice", "word", "excel",
      "powerpoint"].any fun k => occursIn k (pyLower n)) = true
  · simp [List.find?, h1, h2, h3, h4, h5]
  by_cases h6 : (["game", "steam", "minecraft",
      "roblox"].any fun k => occursIn k (pyLower n)) = true
  · simp [List.find?, h1, h2, h3, h4, h5, h6]
  by_cases h7 : (["terminal", "system", "admin", "disk",
      "backup"].any fun k => occursIn k (pyLower n)) = true
  · simp [List.find?, h1, h2, h3, h4, h5, h6, h7]
  · simp [List.find?, h1, h2, h3, h4, h5, h6, h7]

theorem scoreIcon_eq_spec (c : IconCandidate) :
    scoreIcon c = specScore (iconFormat c.name) c.size c.dims := by
  unfold scoreIcon specScore iconFormat formatBase
  by_cases h1 : pyLower (pySuffix c.name) = ".svg"
  · simp [h1]
  by_cases h2 : pyLower (pySuffix c.name) = ".png"
  · simp [h1, h2]
  by_cases h3 : pyLower (pySuffix c.name) = ".xpm"
  · simp [h1, h2, h3]
  by_cases h4 : pyLower (pySuffix c.name) = ".ico"
  · simp [h1, h2, h3, h4]
  · simp [h1, h2, h3, h4]

end GenerateOnce


/-- Lemma: `find?` returns the head of `filter`. -/
theorem find?_eq_head?_filter {α : Type} (p : α → Bool) :
    ∀ l : List α, l.find? p = (l.filter p).head? := by
  intro l
  induction l with
  | nil => rfl
  | cons a t ih =>
    cases h : p a
    · rw [List.find?_cons_of_neg _ (by simp [h]),
        List.filter_cons_of_neg (by simp [h]), ih]
    · rw [List.find?_cons_of_pos _ h, List.filter_cons_of_pos h, List.head?_cons]

/-- If a `flatMap` collapses to a single element, that element comes from
the first block with a non-empty image, and `find?` locates that block. -/
theorem flatMap_singleton_find {α β : Type} (f : α → List β) :
    ∀ (l : List α) (x : β), l.flatMap f = [x] →
      ∃ g, l.find? (fun a => !(f a).isEmpty) = some g ∧ x ∈ f g := by
  intro l
  induction l with
  | nil => intro x hx; simp at hx
  | cons a t ih =>
    intro x hx
    rw [List.flatMap_cons] at hx
    cases hfa : f a with
    | nil =>
      rw [hfa, List.nil_append] at hx
      obtain ⟨g, hg, hmem⟩ := ih x hx
      refine ⟨g, ?_, hmem⟩
      simpa [List.find?_cons, hfa] using hg
    | cons y ys =>
      rw [hfa, List.cons_append] at hx
      have hy : y = x := (List.cons_eq_cons.mp hx).1
      refine ⟨a, by simp [List.find?_cons, hfa], ?_⟩
      rw [hfa, hy]
      exact List.mem_cons_self x ys

/-- A filtered-then-mapped list is non-empty exactly when some element
passes the filter. -/
theorem filter_map_nonempty {α β : Type} (p : α → Bool) (f : α → β) :
    ∀ l : List α, (!((l.filter p).map f).isEmpty) = l.any p := by
  intro l
  induction l with
  | nil => rfl
  | cons a t ih => cases h : p a <;> simp [List.filter_cons, h, ih]

namespace GenerateOnce

/-- Invariant of the source's scoring loop: starting from a current best
`b`, the loop either keeps `b` (when nothing strictly beats it) or ends on
a strict improvement `w` that no earlier element reaches and no element at
all exceeds. -/
theorem selectLoop_inv (l : List IconCandidate) : ∀ b : IconCandidate,
    ((selectLoop l (some b) (scoreIcon b)).1 = some b ∧
      ∀ c ∈ l, scoreIcon c ≤ scoreIcon b) ∨
    (∃ w l1 l2, (selectLoop l (some b) (scoreIcon b)).1 = some w ∧
      l = l1 ++ w :: l2 ∧ scoreIcon b < scoreIcon w ∧
      (∀ c ∈ l1, scoreIcon c < scoreIcon w) ∧
      (∀ c ∈ l, scoreIcon c ≤ scoreIcon w)) := by
  induction l with
  | nil => intro b; left; exact ⟨rfl, by simp⟩
  | cons c rest ih =>
    intro b
    by_cases hcb : scoreIcon b < scoreIcon c
    · have hstep : selectLoop (c :: rest) (some b) (scoreIcon b)
          = selectLoop rest (some c) (scoreIcon c) := by
        simp [selectLoop, gt_iff_lt, Nat.cast_lt, hcb]
      rw [hstep]
      rcases ih c with ⟨h1, h2⟩ | ⟨w, l1, l2, hres, heq, hbw, hl1, hall⟩
      · right
        refine ⟨c, [], rest, h1, rfl, hcb, by simp, ?_⟩
        intro x hx
        rcases List.mem_cons.mp hx with rfl | hx
        · exact le_refl _
        · exact h2 x hx
      · right
        refine ⟨w, c :: l1, l2, hres, by rw [heq, List.cons_append],
          lt_trans hcb hbw, ?_, ?_⟩
        · intro x hx
          rcases List.mem_cons.mp hx with rfl | hx
          · exact hbw
          · exact hl1 x hx
        · intro x hx
          rcases List.mem_cons.mp hx with rfl | hx
          · exact le_of_lt hbw
          · exact hall x hx
    · have hstep : selectLoop (c :: rest) (some b) (scoreIcon b)
          = selectLoop rest (some b) (scoreIcon b) := by
        simp [selectLoop, gt_iff_lt, Nat.cast_lt, hcb]
      rw [hstep]
      have hcb' : scoreIcon c ≤ scoreIcon b := le_of_not_lt hcb
      rcases ih b with ⟨h1, h2⟩ | ⟨w, l1, l2, hres, heq, hbw, hl1, hall⟩
      · left
        refine ⟨h1, ?_⟩
        intro x hx
        rcases List.mem_cons.mp hx with rfl | hx
        · exact hcb'
        · exact h2 x hx
      · right
        refine ⟨w, c :: l1, l2, hres, by rw [heq, List.cons_append], hbw, ?_, ?_⟩
        · intro x hx
          rcases List.mem_cons.mp hx with rfl | hx
          · exact lt_of_le_of_lt hcb' hbw
          · exact hl1 x hx
        · intro x hx
          rcases List.mem_cons.mp hx with rfl | hx
          · exact le_trans hcb' (le_of_lt hbw)
          · exact hall x hx

/-- On a non-empty candidate list the loop's first iteration always
installs the head (every score exceeds the `-1` sentinel). -/
theorem selectBest_cons (c : IconCandidate) (rest : List IconCandidate) :
    selectBest (c :: rest) = (selectLoop rest (some c) (scoreIcon c)).1 := by
  have hpos : (-1 : Int) < (scoreIcon c : Int) := by omega
  simp [selectBest, selectLoop, gt_iff_lt, hpos]

/-- The winner is an element of the list, nothing scores above it, and
everything strictly before it scores strictly below it (first-match-wins
tie-breaking). -/
theorem selectBest_spec (l : List IconCandidate) (hne : l ≠ []) :
    ∃ w l1 l2, selectBest l = some w ∧ l = l1 ++ w :: l2 ∧
      (∀ c ∈ l1, scoreIcon c < scoreIcon w) ∧
      (∀ c ∈ l, scoreIcon c ≤ scoreIcon w) := by
  cases l with
  | nil => exact absurd rfl hne
  | cons c rest =>
    rw [selectBest_cons]
    rcases selectLoop_inv rest c with ⟨h1, h2⟩ | ⟨w, l1, l2, hres, heq, hcw, hl1, hall⟩
    · refine ⟨c, [], rest, h1, rfl, by simp, ?_⟩
      intro x hx
      rcases List.mem_cons.mp hx with rfl | hx
      · exact le_refl _
      · exact h2 x hx
    · refine ⟨w, c :: l1, l2, hres, by rw [heq, List.cons_append], ?_, ?_⟩
      · intro x hx
        rcases List.mem_cons.mp hx with rfl | hx
        · exact hcw
        · exact hl1 x hx
      · intro x hx
        rcases List.mem_cons.mp hx with rfl | hx
        · exact le_of_lt hcw
        · exact hall x hx

/-- The loop never forgets an installed best candidate. -/
theorem selectLoop_isSome (l : List IconCandidate) : ∀ (b : IconCandidate) (s : Int),
    ((selectLoop l (some b) s).1).isSome = true := by
  induction l with
  | nil => intro b s; rfl
  | cons c rest ih =>
    intro b s
    by_cases h : (scoreIcon c : Int) > s
    · simp only [selectLoop, if_pos h]
      exact ih c (scoreIcon c)
    · simp only [selectLoop, if_neg h]
      exact ih b s

/-- On a non-empty candidate list a best icon is always selected. -/
theorem selectBest_isSome (l : List IconCandidate) (hne : l ≠ []) :
    (selectBest l).isSome = true := by
  cases l with
  | nil => exact absurd rfl hne
  | cons c rest => rw [selectBest_cons]; exact selectLoop_isSome rest c _

end GenerateOnce

/-- A sequence of whole-file writes leaves, at each path, the last content
written there, and elsewhere the underlying filesystem. -/
theorem applyWrites_apply (ws : List (String × String)) :
    ∀ (fs : FS) (q : String), applyWrites ws fs q =
      match lastWrite ws q with
      | some c => some (c, false)
      | none => fs q := by
  induction ws with
  | nil => intro fs q; rfl
  | cons w ws ih =>
    intro fs q
    show applyWrites ws (writeFile fs w.1 w.2) q = _
    rw [ih]
    cases h : lastWrite ws q with
    | some c => simp [lastWrite, h]
    | none =>
      simp only [lastWrite, h]
      by_cases hq : w.1 = q
      · simp [writeFile, hq]
      · simp [writeFile, hq]

/-- Re-applying the same write sequence changes nothing. -/
theorem applyWrites_idem (ws : List (String × String)) (fs : FS) :
    applyWrites ws (applyWrites ws fs) = applyWrites ws fs := by
  funext q
  rw [applyWrites_apply, applyWrites_apply]
  cases h : lastWrite ws q with
  | some c => simp
  | none => simp [applyWrites_apply, h]

namespace GenerateOnce

/-- Lemma: `extract_and_cache_icons` returns `None` exactly on extraction failure
or an empty enumeration. -/
theorem extract_none_iff (r : ExtractResult) :
    extract_and_cache_icons r = none ↔
      r = .launchError ∨ r = .nonzeroExit ∨ r = .timeout ∨ r = .ok [] := by
  cases r with
  | launchError => simp [extract_and_cache_icons]
  | nonzeroExit => simp [extract_and_cache_icons]
  | timeout => simp [extract_and_cache_icons]
  | ok files =>
    cases files with
    | nil => simp [extract_and_cache_icons]
    | cons c rest =>
      obtain ⟨b, hb⟩ := Option.isSome_iff_exists.mp
        (selectBest_isSome (c :: rest) (List.cons_ne_nil c rest))
      simp [extract_and_cache_icons, hb]

end GenerateOnce

namespace GenerateOnce

/-- Pointwise characterization of one generation run: when the entry write
does not raise, the entry path holds the rendered template (executable
unless the `chmod` raised); every other path holds the last cache write to
it, or the prior filesystem content. -/
theorem generateInner_apply (icd dd : String) (job : BundleJob) (fs : FS) (q : String) :
    (generateInner icd dd job fs).1 q =
      if job.writeRaises = false ∧
          dd ++ "/" ++ pyStem (baseName job.appimage_path) ++ ".desktop" = q then
        some (desktopContent job.appimage_path (pyStem (baseName job.appimage_path))
          (extract_and_cache_icons job.extract)
          (detect_category (pyStem (baseName job.appimage_path))), !job.chmodRaises)
      else
        match lastWrite (extractWrites icd job.extract) q with
        | some c => some (c, false)
        | none => fs q := by
  cases hw : job.writeRaises with
  | true =>
    rw [if_neg (by simp [hw])]
    simp only [generateInner, hw, if_true]
    exact applyWrites_apply _ fs q
  | false =>
    cases hc : job.chmodRaises with
    | true =>
      by_cases hq : dd ++ "/" ++ pyStem (baseName job.appimage_path) ++ ".desktop" = q
      · rw [if_pos ⟨rfl, hq⟩]
        simp only [generateInner, hw, hc, Bool.false_eq_true, if_false, if_true]
        simp [writeFile, hq]
      · rw [if_neg (by simp [hq])]
        simp only [generateInner, hw, hc, Bool.false_eq_true, if_false, if_true]
        simp only [writeFile, if_neg hq]
        exact applyWrites_apply _ fs q
    | false =>
      by_cases hq : dd ++ "/" ++ pyStem (baseName job.appimage_path) ++ ".desktop" = q
      · rw [if_pos ⟨rfl, hq⟩]
        simp only [generateInner, hw, hc, Bool.false_eq_true, if_false]
        simp [chmodExec, writeFile, hq]
      · rw [if_neg (by simp [hq])]
        simp only [generateInner, hw, hc, Bool.false_eq_true, if_false]
        simp only [chmodExec, writeFile, if_neg hq]
        exact applyWrites_apply _ fs q

end GenerateOnce

/-! ## Claims -/

/-- C1: for every non-empty list of icon candidates, the extraction
pipeline selects as winner a candidate whose score no other candidate
exceeds, earlier candidates being strictly below it (ties keep the
first-seen candidate), and returns its stem; every candidate's score is
the spec formula (format base svg=1000/png=500/xpm=100/ico=50, plus
`min(size/1024, 100)`, plus `min(w*h/1000, 200)` for a PNG with decodable
dimensions and zero otherwise); a 20000-byte PNG with no decodable
dimensions scores 519. -/
theorem C1_best_icon_scoring :
    (∀ l : List IconCandidate, l ≠ [] →
      ∃ w l1 l2, GenerateOnce.selectBest l = some w ∧
        GenerateOnce.extract_and_cache_icons (.ok l) = some (pyStem w.name) ∧
        l = l1 ++ w :: l2 ∧
        (∀ c ∈ l1, GenerateOnce.scoreIcon c < GenerateOnce.scoreIcon w) ∧
        (∀ c ∈ l, GenerateOnce.scoreIcon c ≤ GenerateOnce.scoreIcon w)) ∧
    (∀ c : IconCandidate,
      GenerateOnce.scoreIcon c = specScore (iconFormat c.name) c.size c.dims) ∧
    GenerateOnce.scoreIcon ⟨"icon.png", 20000, none, ""⟩ = 519 := by
  refine ⟨?_, GenerateOnce.scoreIcon_eq_spec, by decide⟩
  intro l hne
  obtain ⟨w, l1, l2, hw, heq, hl1, hall⟩ := GenerateOnce.selectBest_spec l hne
  refine ⟨w, l1, l2, hw, ?_, heq, hl1, hall⟩
  cases l with
  | nil => exact absurd rfl hne
  | cons c rest => simp [GenerateOnce.extract_and_cache_icons, hw]

/-- Witness for C1 at a concrete two-candidate list. -/
theorem C1_best_icon_scoring_witness :
    ∃ w l1 l2,
      GenerateOnce.selectBest
        [⟨"icon.png", 20000, none, "p"⟩, ⟨"logo.svg", 100, none, "s"⟩] = some w ∧
      GenerateOnce.extract_and_cache_icons
        (.ok [⟨"icon.png", 20000, none, "p"⟩, ⟨"logo.svg", 100, none, "s"⟩]) =
          some (pyStem w.name) ∧
      [⟨"icon.png", 20000, none, "p"⟩, ⟨"logo.svg", 100, none, "s"⟩] =
        l1 ++ w :: l2 ∧
      (∀ c ∈ l1, GenerateOnce.scoreIcon c < GenerateOnce.scoreIcon w) ∧
      (∀ c ∈ [(⟨"icon.png", 20000, none, "p"⟩ : IconCandidate),
          ⟨"logo.svg", 100, none, "s"⟩],
        GenerateOnce.scoreIcon c ≤ GenerateOnce.scoreIcon w) :=
  C1_best_icon_scoring.1
    [⟨"icon.png", 20000, none, "p"⟩, ⟨"logo.svg", 100, none, "s"⟩]
    (List.cons_ne_nil _ _)

/-- C2: `detect_category` lower-cases the name and tests the seven keyword
groups in the spec's fixed order, returning the first matching group's
category and `Utility;` when none matches; in particular a name containing
both a browser keyword and a game keyword classifies as a browser. -/
theorem C2_category_table :
    (∀ n : String, GenerateOnce.detect_category n = specClassify n) ∧
    GenerateOnce.detect_category "firefox-Games-edition" = "Network;WebBrowser;" :=
  ⟨GenerateOnce.detect_category_eq_spec, by decide⟩

/-- C10 counterexample: the file name `.png` passes the enumeration filter
(`file.lower().endswith('.png')`) but `Path('.png').suffix` is empty, so
it earns no format base score: its score is 0, far below 50. -/
theorem C10_counterexample :
    isIconFile ".png" = true ∧
    GenerateOnce.scoreIcon ⟨".png", 0, none, ""⟩ < 50 := by
  exact ⟨by decide, by decide⟩

/-- C10 (amended): every candidate's score is non-negative, hence strictly
above the `-1` sentinel, so on a non-empty enumeration a best icon is
always selected, the post-loop `None` branch is unreachable, and
`extract_and_cache_icons` returns `None` exactly when extraction failed or
no candidate was enumerated. -/
theorem C10_score_floor :
    (∀ c : IconCandidate, (-1 : Int) < (GenerateOnce.scoreIcon c : Int)) ∧
    (∀ l : List IconCandidate, l ≠ [] →
      (GenerateOnce.selectBest l).isSome = true) ∧
    (∀ r : ExtractResult, GenerateOnce.extract_and_cache_icons r = none ↔
      r = .launchError ∨ r = .nonzeroExit ∨ r = .timeout ∨ r = .ok []) :=
  ⟨fun c => by omega, GenerateOnce.selectBest_isSome, GenerateOnce.extract_none_iff⟩

/-- Witness for C10 on a concrete singleton list. -/
theorem C10_score_floor_witness :
    (GenerateOnce.selectBest [⟨".png", 0, none, ""⟩]).isSome = true :=
  C10_score_floor.2.1 [⟨".png", 0, none, ""⟩] (List.cons_ne_nil _ _)

/-- C3: when extraction fails (launch error, non-zero exit, timeout) or
succeeds with no candidate icon, `extract_and_cache_icons` returns `None`,
and generation still writes an executable desktop entry whose `Icon` line
is the literal fallback `application-x-executable`. -/
theorem C3_failure_fallback :
    ∀ r : ExtractResult,
      (r = .launchError ∨ r = .nonzeroExit ∨ r = .timeout ∨ r = .ok []) →
      GenerateOnce.extract_and_cache_icons r = none ∧
      ∀ (icd dd path : String) (fs : FS),
        (GenerateOnce.generate_desktop_file icd dd ⟨path, r, false, false, .ok⟩ fs).1
            (dd ++ "/" ++ pyStem (baseName path) ++ ".desktop") =
          some ("[Desktop Entry]" ++ "\n" ++
            "Type=Application" ++ "\n" ++
            "Name=" ++ pyStem (baseName path) ++ "\n" ++
            "Comment=AppImage Application" ++ "\n" ++
            "Exec=" ++ path ++ " %u" ++ "\n" ++
            "Icon=" ++ "application-x-executable" ++ "\n" ++
            "Terminal=false" ++ "\n" ++
            "Categories=" ++ GenerateOnce.detect_category (pyStem (baseName path)) ++ "\n",
            true) := by
  intro r hr
  have hnone : GenerateOnce.extract_and_cache_icons r = none :=
    (GenerateOnce.extract_none_iff r).mpr hr
  refine ⟨hnone, ?_⟩
  intro icd dd path fs
  show (GenerateOnce.generateInner icd dd ⟨path, r, false, false, .ok⟩ fs).1 _ = _
  rw [GenerateOnce.generateInner_apply, if_pos ⟨rfl, rfl⟩]
  simp [GenerateOnce.desktopContent, hnone, GenerateOnce.iconField]

/-- Witness for C3 at a concrete empty enumeration. -/
theorem C3_failure_fallback_witness :
    GenerateOnce.extract_and_cache_icons (.ok []) = none ∧
    ∀ (icd dd path : String) (fs : FS),
      (GenerateOnce.generate_desktop_file icd dd ⟨path, .ok [], false, false, .ok⟩ fs).1
          (dd ++ "/" ++ pyStem (baseName path) ++ ".desktop") =
        some ("[Desktop Entry]" ++ "\n" ++
          "Type=Application" ++ "\n" ++
          "Name=" ++ pyStem (baseName path) ++ "\n" ++
          "Comment=AppImage Application" ++ "\n" ++
          "Exec=" ++ path ++ " %u" ++ "\n" ++
          "Icon=" ++ "application-x-executable" ++ "\n" ++
          "Terminal=false" ++ "\n" ++
          "Categories=" ++ GenerateOnce.detect_category (pyStem (baseName path)) ++ "\n",
          true) :=
  C3_failure_fallback (.ok []) (Or.inr (Or.inr (Or.inr rfl)))

/-- C4: on a non-empty enumeration every candidate (not only the winner)
is copied into the icon cache, its destination stripped of the extension:
SVGs to `scalable/apps/<stem>`, others to `<bucket>/apps/<stem>` with
bucket 16x16 below 5000 bytes, 32x32 below 15000, 48x48 below 50000,
64x64 below 100000, and 128x128 otherwise. -/
theorem C4_cache_all_candidates :
    ∀ (icd : String) (cands : List IconCandidate), cands ≠ [] →
      (GenerateOnce.extractWrites icd (.ok cands) =
        cands.map fun c => (GenerateOnce.cacheDest icd c, c.data)) ∧
      (∀ c : IconCandidate, iconFormat c.name = some .svg →
        GenerateOnce.cacheDest icd c = icd ++ "/scalable/apps/" ++ pyStem c.name) ∧
      (∀ c : IconCandidate, iconFormat c.name ≠ some .svg → c.size < 5000 →
        GenerateOnce.cacheDest icd c = icd ++ "/" ++ "16x16" ++ "/apps/" ++ pyStem c.name) ∧
      (∀ c : IconCandidate, iconFormat c.name ≠ some .svg →
        5000 ≤ c.size → c.size < 15000 →
        GenerateOnce.cacheDest icd c = icd ++ "/" ++ "32x32" ++ "/apps/" ++ pyStem c.name) ∧
      (∀ c : IconCandidate, iconFormat c.name ≠ some .svg →
        15000 ≤ c.size → c.size < 50000 →
        GenerateOnce.cacheDest icd c = icd ++ "/" ++ "48x48" ++ "/apps/" ++ pyStem c.name) ∧
      (∀ c : IconCandidate, iconFormat c.name ≠ some .svg →
        50000 ≤ c.size → c.size < 100000 →
        GenerateOnce.cacheDest icd c = icd ++ "/" ++ "64x64" ++ "/apps/" ++ pyStem c.name) ∧
      (∀ c : IconCandidate, iconFormat c.name ≠ some .svg → 100000 ≤ c.size →
        GenerateOnce.cacheDest icd c = icd ++ "/" ++ "128x128" ++ "/apps/" ++ pyStem c.name) := by
  intro icd cands hne
  have hsvg : ∀ c : IconCandidate,
      (iconFormat c.name = some .svg) ↔ pyLower (pySuffix c.name) = ".svg" := by
    intro c
    unfold iconFormat
    split_ifs with h1 h2 h3 h4 <;> simp_all
  refine ⟨?_, ?_, ?_, ?_, ?_, ?_, ?_⟩
  · cases cands with
    | nil => exact absurd rfl hne
    | cons c rest =>
      obtain ⟨b, hb⟩ := Option.isSome_iff_exists.mp
        (GenerateOnce.selectBest_isSome (c :: rest) (List.cons_ne_nil c rest))
      simp [GenerateOnce.extractWrites, hb]
  · intro c hf
    rw [GenerateOnce.cacheDest, if_pos ((hsvg c).mp hf)]
  · intro c hf h1
    rw [GenerateOnce.cacheDest, if_neg (fun h => hf ((hsvg c).mpr h))]
    simp [GenerateOnce.sizeDir, h1]
  · intro c hf h1 h2
    rw [GenerateOnce.cacheDest, if_neg (fun h => hf ((hsvg c).mpr h))]
    simp only [GenerateOnce.sizeDir, if_neg (by omega : ¬c.size < 5000), if_pos h2]
  · intro c hf h1 h2
    rw [GenerateOnce.cacheDest, if_neg (fun h => hf ((hsvg c).mpr h))]
    simp only [GenerateOnce.sizeDir, if_neg (by omega : ¬c.size < 5000),
      if_neg (by omega : ¬c.size < 15000), if_pos h2]
  · intro c hf h1 h2
    rw [GenerateOnce.cacheDest, if_neg (fun h => hf ((hsvg c).mpr h))]
    simp only [GenerateOnce.sizeDir, if_neg (by omega : ¬c.size < 5000),
      if_neg (by omega : ¬c.size < 15000), if_neg (by omega : ¬c.size < 50000),
      if_pos h2]
  · intro c hf h1
    rw [GenerateOnce.cacheDest, if_neg (fun h => hf ((hsvg c).mpr h))]
    simp only [GenerateOnce.sizeDir, if_neg (by omega : ¬c.size < 5000),
      if_neg (by omega : ¬c.size < 15000), if_neg (by omega : ¬c.size < 50000),
      if_neg (by omega : ¬c.size < 100000)]

/-- Witness for C4: a concrete singleton enumeration and a concrete
mid-size PNG landing in the 32x32 bucket. -/
theorem C4_cache_all_candidates_witness :
    GenerateOnce.extractWrites "i" (.ok [⟨"a.png", 6000, none, "d"⟩]) =
      [(GenerateOnce.cacheDest "i" ⟨"a.png", 6000, none, "d"⟩, "d")] ∧
    GenerateOnce.cacheDest "i" ⟨"a.png", 6000, none, "d"⟩ =
      "i" ++ "/" ++ "32x32" ++ "/apps/" ++ pyStem "a.png" :=
  ⟨(C4_cache_all_candidates "i" [⟨"a.png", 6000, none, "d"⟩]
      (List.cons_ne_nil _ _)).1,
   (C4_cache_all_candidates "i" [⟨"a.png", 6000, none, "d"⟩]
      (List.cons_ne_nil _ _)).2.2.2.1 ⟨"a.png", 6000, none, "d"⟩
      (by decide) (by decide) (by decide)⟩

/-- C5: for every bundle path, generation writes to
`<applicationsDir>/<stem>.desktop` exactly the fixed template — the lines
`[Desktop Entry]`, `Type=Application`, `Name=<stem>`,
`Comment=AppImage Application`, `Exec=<bundle-path> %u`,
`Icon=<icon-or-fallback>`, `Terminal=false`, `Categories=<category>` —
and marks the file executable. -/
theorem C5_desktop_template :
    ∀ (icd dd : String) (job : BundleJob) (fs : FS),
      job.writeRaises = false → job.chmodRaises = false →
      (GenerateOnce.generate_desktop_file icd dd job fs).1
          (dd ++ "/" ++ pyStem (baseName job.appimage_path) ++ ".desktop") =
        some ("[Desktop Entry]" ++ "\n" ++
          "Type=Application" ++ "\n" ++
          "Name=" ++ pyStem (baseName job.appimage_path) ++ "\n" ++
          "Comment=AppImage Application" ++ "\n" ++
          "Exec=" ++ job.appimage_path ++ " %u" ++ "\n" ++
          "Icon=" ++ GenerateOnce.iconField
            (GenerateOnce.extract_and_cache_icons job.extract) ++ "\n" ++
          "Terminal=false" ++ "\n" ++
          "Categories=" ++
            GenerateOnce.detect_category (pyStem (baseName job.appimage_path)) ++ "\n",
          true) := by
  intro icd dd job fs hw hc
  show (GenerateOnce.generateInner icd dd job fs).1 _ = _
  rw [GenerateOnce.generateInner_apply, if_pos ⟨hw, rfl⟩, hc]
  rfl

/-- Witness for C5 at a concrete bundle path and failed extraction. -/
theorem C5_desktop_template_witness :
    (GenerateOnce.generate_desktop_file "i" "d"
        ⟨"/home/u/AppImages/Test.AppImage", .launchError, false, false, .ok⟩
        (fun _ => none)).1
        ("d" ++ "/" ++ pyStem (baseName "/home/u/AppImages/Test.AppImage") ++ ".desktop") =
      some ("[Desktop Entry]" ++ "\n" ++
        "Type=Application" ++ "\n" ++
        "Name=" ++ pyStem (baseName "/home/u/AppImages/Test.AppImage") ++ "\n" ++
        "Comment=AppImage Application" ++ "\n" ++
        "Exec=" ++ "/home/u/AppImages/Test.AppImage" ++ " %u" ++ "\n" ++
        "Icon=" ++ GenerateOnce.iconField
          (GenerateOnce.extract_and_cache_icons .launchError) ++ "\n" ++
        "Terminal=false" ++ "\n" ++
        "Categories=" ++
          GenerateOnce.detect_category
            (pyStem (baseName "/home/u/AppImages/Test.AppImage")) ++ "\n",
        true) :=
  C5_desktop_template "i" "d"
    ⟨"/home/u/AppImages/Test.AppImage", .launchError, false, false, .ok⟩
    (fun _ => none) rfl rfl

/-- C6: re-running generation for the same bundle with identical inputs is
idempotent: the second run reproduces the first run's filesystem exactly
(same entry path, byte-identical content, no accumulation). -/
theorem C6_generate_idempotent :
    ∀ (icd dd : String) (job : BundleJob) (fs : FS),
      (GenerateOnce.generate_desktop_file icd dd job
          ((GenerateOnce.generate_desktop_file icd dd job fs).1)).1 =
        (GenerateOnce.generate_desktop_file icd dd job fs).1 := by
  intro icd dd job fs
  show (GenerateOnce.generateInner icd dd job
      ((GenerateOnce.generateInner icd dd job fs).1)).1 =
    (GenerateOnce.generateInner icd dd job fs).1
  funext q
  rw [GenerateOnce.generateInner_apply, GenerateOnce.generateInner_apply]
  by_cases hq : job.writeRaises = false ∧
      dd ++ "/" ++ pyStem (baseName job.appimage_path) ++ ".desktop" = q
  · rw [if_pos hq, if_pos hq]
  · rw [if_neg hq, if_neg hq]
    cases h : lastWrite (GenerateOnce.extractWrites icd job.extract) q <;> simp [h]

/-- The two files' scoring functions coincide (their bodies are verbatim
copies). -/
theorem monitor_scoreIcon_eq (c : IconCandidate) :
    Monitor.scoreIcon c = GenerateOnce.scoreIcon c := rfl

theorem monitor_selectLoop_eq :
    ∀ (l : List IconCandidate) (b : Option IconCandidate) (s : Int),
      Monitor.selectLoop l b s = GenerateOnce.selectLoop l b s := by
  intro l
  induction l with
  | nil => intro b s; rfl
  | cons c rest ih =>
    intro b s
    simp only [Monitor.selectLoop, GenerateOnce.selectLoop,
      monitor_scoreIcon_eq, ih]

theorem monitor_selectBest_eq (l : List IconCandidate) :
    Monitor.selectBest l = GenerateOnce.selectBest l := by
  unfold Monitor.selectBest GenerateOnce.selectBest
  rw [monitor_selectLoop_eq]

theorem monitor_extract_eq (r : ExtractResult) :
    Monitor.extract_and_cache_icons r = GenerateOnce.extract_and_cache_icons r := by
  cases r with
  | launchError => rfl
  | nonzeroExit => rfl
  | timeout => rfl
  | ok files =>
    simp only [Monitor.extract_and_cache_icons, GenerateOnce.extract_and_cache_icons,
      monitor_selectBest_eq]

theorem monitor_extractWrites_eq (icd : String) (r : ExtractResult) :
    Monitor.extractWrites icd r = GenerateOnce.extractWrites icd r := by
  cases r with
  | launchError => rfl
  | nonzeroExit => rfl
  | timeout => rfl
  | ok files =>
    have hcd : Monitor.cacheDest = GenerateOnce.cacheDest := rfl
    simp only [Monitor.extractWrites, GenerateOnce.extractWrites,
      monitor_selectBest_eq, hcd]

theorem monitor_generate_eq (icd dd : String) (job : BundleJob) (fs : FS) :
    Monitor.generate_desktop_file icd dd job fs =
      GenerateOnce.generate_desktop_file icd dd job fs := by
  have h1 : Monitor.detect_category = GenerateOnce.detect_category := rfl
  have h2 : Monitor.desktopContent = GenerateOnce.desktopContent := rfl
  simp only [Monitor.generate_desktop_file, GenerateOnce.generate_desktop_file,
    Monitor.generateInner, GenerateOnce.generateInner,
    monitor_extractWrites_eq, monitor_extract_eq, h1, h2]

/-- C7: the one-shot script and the watch daemon implement the same core:
classification, icon extraction (result and cache writes), and desktop
entry generation agree between `generate_once.py` and `monitor.py` on
every input. -/
theorem C7_entry_points_equivalent :
    (∀ n : String, GenerateOnce.detect_category n = Monitor.detect_category n) ∧
    (∀ r : ExtractResult,
      GenerateOnce.extract_and_cache_icons r = Monitor.extract_and_cache_icons r) ∧
    (∀ (icd : String) (r : ExtractResult),
      GenerateOnce.extractWrites icd r = Monitor.extractWrites icd r) ∧
    (∀ (icd dd : String) (job : BundleJob) (fs : FS),
      GenerateOnce.generate_desktop_file icd dd job fs =
        Monitor.generate_desktop_file icd dd job fs) :=
  ⟨fun _ => rfl, fun r => (monitor_extract_eq r).symm,
   fun icd r => (monitor_extractWrites_eq icd r).symm,
   fun icd dd job fs => (monitor_generate_eq icd dd job fs).symm⟩

/-- C8: a name containing exactly one keyword of the classification table
(counting every keyword of every group) classifies to that keyword's
group's category; when exactly two groups match, the group listed earlier
in the table wins. -/
theorem C8_keyword_precedence :
    (∀ (n k cat : String), matchedKeywords n = [(k, cat)] →
      GenerateOnce.detect_category n = cat) ∧
    (∀ (n : String) (g1 g2 : List String × String),
      categoryTable.filter (fun g => groupMatches (pyLower n) g.1) = [g1, g2] →
      GenerateOnce.detect_category n = g1.2) := by
  constructor
  · intro n k cat h
    unfold matchedKeywords at h
    obtain ⟨g, hg, hmem⟩ := flatMap_singleton_find _ categoryTable (k, cat) h
    have hg' : categoryTable.find? (fun g => groupMatches (pyLower n) g.1) = some g := by
      rw [← hg]
      congr 1
      funext g
      simp only [filter_map_nonempty]
      rfl
    obtain ⟨k', hk', hpair⟩ := List.mem_map.mp hmem
    have hcat : g.2 = cat := congrArg Prod.snd hpair
    rw [GenerateOnce.detect_category_eq_spec]
    unfold specClassify
    rw [hg']
    exact hcat
  · intro n g1 g2 h
    have hfind : categoryTable.find? (fun g => groupMatches (pyLower n) g.1) = some g1 := by
      rw [find?_eq_head?_filter, h]
      rfl
    rw [GenerateOnce.detect_category_eq_spec]
    unfold specClassify
    rw [hfind]

/-- Witness for C8: `gimp-tool` contains exactly the keyword `gimp`;
`vlc-game` matches exactly the media group and the game group, and the
media group (listed earlier) wins. -/
theorem C8_keyword_precedence_witness :
    GenerateOnce.detect_category "gimp-tool" = "Graphics;2DGraphics;3DGraphics;" ∧
    GenerateOnce.detect_category "vlc-game" = "AudioVideo;Audio;Video;" :=
  ⟨C8_keyword_precedence.1 "gimp-tool" "gimp" "Graphics;2DGraphics;3DGraphics;"
      (by decide),
   C8_keyword_precedence.2 "vlc-game"
      (["player", "vlc", "mpv", "kodi", "spotify", "audacity"],
        "AudioVideo;Audio;Video;")
      (["game", "steam", "minecraft", "roblox"], "Game;") (by decide)⟩

/-- C9: generation never propagates an exception: the wrapper returns
normally for every bundle and filesystem, a batched run then continues
with the remaining bundles, and when the entry write raises, the
exception stays inside the body — the entry file is abandoned and only
the cache writes remain. -/
theorem C9_no_exception_propagation :
    ∀ (icd dd : String) (job : BundleJob) (fs : FS),
      (GenerateOnce.generate_desktop_file icd dd job fs).2 = none ∧
      (∀ rest : List BundleJob,
        GenerateOnce.processAll icd dd (job :: rest) fs =
          GenerateOnce.processAll icd dd rest
            ((GenerateOnce.generate_desktop_file icd dd job fs).1)) ∧
      (job.writeRaises = true →
        ((GenerateOnce.generateInner icd dd job fs).2).isSome = true ∧
        (GenerateOnce.generateInner icd dd job fs).1 =
          applyWrites (GenerateOnce.extractWrites icd job.extract) fs) := by
  intro icd dd job fs
  refine ⟨rfl, fun rest => rfl, fun hw => ?_⟩
  constructor
  · simp [GenerateOnce.generateInner, hw]
  · simp [GenerateOnce.generateInner, hw]

/-- Witness for C9 at a concrete raising entry write. -/
theorem C9_no_exception_propagation_witness :
    ((GenerateOnce.generateInner "i" "d"
        ⟨"/a/b.AppImage", .timeout, true, false, .fileNotFound⟩
        (fun _ => none)).2).isSome = true ∧
    (GenerateOnce.generateInner "i" "d"
        ⟨"/a/b.AppImage", .timeout, true, false, .fileNotFound⟩
        (fun _ => none)).1 =
      applyWrites (GenerateOnce.extractWrites "i" .timeout) (fun _ => none) :=
  (C9_no_exception_propagation "i" "d"
    ⟨"/a/b.AppImage", .timeout, true, false, .fileNotFound⟩ (fun _ => none)).2.2 rfl
